import Mathlib

/-!
Shallow embedding of the GLWidget volume raycasting renderer
(src/src/GLWidget.cpp of vis15-volume-raycasting).

The widget state is a record of the member fields read and written by the
member functions that the verified claims concern.  OpenGL object creation
(new textures, new framebuffer objects) is modelled by an allocation
counter: each freshly created GL object receives the current counter value
as its generation tag, and the counter is incremented.  A paint is embedded
as a pure function from the widget state to the trace of render work it
issues (the clear color passed to glClearColor and the list of draw passes
with their target framebuffer, face-cull mode and the uniforms they bind).
Machine floats of the source are embedded as rationals.
-/

namespace VolumeRaycasting

/-- Compositing techniques selectable via setTechnique. -/
inductive Techniques where
  | MIP
  | ALPHA
  | AVERAGE
deriving DecidableEq, Repr

/-- Face culling mode passed to drawVolumeBBoxCube (GL_FRONT or GL_BACK). -/
inductive CullMode where
  | front
  | back
deriving DecidableEq, Repr

/-- In-memory scalar volume grid handed to dataLoaded by the external loader
(width, height, depth and the flat voxel intensity sequence). -/
structure Volume where
  width : Nat
  height : Nat
  depth : Nat
  voxels : List ℚ
deriving DecidableEq, Repr

/-- GPU 3D texture produced by loadVolume3DTex from the current volume. -/
structure Tex3D where
  gen : Nat
  width : Nat
  height : Nat
  depth : Nat
  data : List ℚ
deriving DecidableEq, Repr

/-- Decoded transfer function image; the none case models a null QImage
(empty or unreadable file path). -/
structure TFImage where
  pixels : List (Nat × Nat × Nat)
deriving DecidableEq, Repr

/-- GPU 1D transfer function texture created by loadTransferFunction1DTex. -/
structure Texture1D where
  gen : Nat
  src : Option TFImage
deriving DecidableEq, Repr

/-- Offscreen framebuffer object holding the ray volume exit position map. -/
structure Fbo where
  gen : Nat
  width : Int
  height : Int
deriving DecidableEq, Repr

/-- QColor with byte channels in 0..255. -/
structure Color where
  red : Nat
  green : Nat
  blue : Nat
deriving DecidableEq, Repr

/-- Three-component vector of rationals (embeds QVector3D). -/
structure Vec3 where
  x : ℚ
  y : ℚ
  z : ℚ
deriving DecidableEq, Repr

/-- The GLWidget member fields that the embedded member functions touch. -/
structure GLState where
  volume : Option Volume
  volume3DTex : Option Tex3D
  transferFunction1DTex : Texture1D
  rayVolumeExitPosMapFramebuffer : Fbo
  backgroundColor : Color
  numSamples : Int
  tmpNumSamples : Int
  sampleRangeStart : ℚ
  sampleRangeEnd : ℚ
  technique : Techniques
  viewOffset : Vec3
  volumeRotAngleX : ℚ
  volumeRotAngleY : ℚ
  lastMousePos : Int × Int
  widgetWidth : Int
  widgetHeight : Int
  allocCounter : Nat
deriving DecidableEq, Repr

/-- Render target of a draw pass: the offscreen framebuffer object
(identified by its generation tag) or the default framebuffer. -/
inductive Target where
  | offscreen (gen : Nat)
  | default
deriving DecidableEq, Repr

/-- One draw pass issued by paintGL: its bound target framebuffer, the face
cull mode of its drawVolumeBBoxCube call, which framebuffer texture it
binds as the exitPositions sampler, and the sampling uniforms it sets. -/
structure Pass where
  target : Target
  cullMode : CullMode
  readsExitTexOf : Option Nat
  numSamplesU : Option Int
  sampleRangeStartU : Option ℚ
  sampleRangeEndU : Option ℚ
deriving DecidableEq, Repr

/-- The render work of one paintGL call: the clear color written first and
the ordered list of draw passes that follow. -/
structure Frame where
  clearColor : ℚ × ℚ × ℚ × ℚ
  passes : List Pass
deriving DecidableEq, Repr

/-- Arguments paintGL passes to glClearColor: each byte channel divided by
256.0 (GLWidget.cpp line 146), alpha fixed at 1. -/
def paintClearColor (c : Color) : ℚ × ℚ × ℚ × ℚ :=
  ((c.red : ℚ) / 256, (c.green : ℚ) / 256, (c.blue : ℚ) / 256, 1)

/-- Clearing to exactly the configured background color, as the spec words
it: a byte channel value v denotes the normalized intensity v/255, so an
output channel equals the background channel exactly when the clear value
is v/255.  This definition follows the spec sentence, for comparison with
paintClearColor, which follows the source. -/
def specBackgroundClear (c : Color) : ℚ × ℚ × ℚ × ℚ :=
  ((c.red : ℚ) / 255, (c.green : ℚ) / 255, (c.blue : ℚ) / 255, 1)

/-- paintGL (GLWidget.cpp lines 144-213): clear to the background color,
return early if no volume is loaded, otherwise run the first pass (bind
the offscreen exit position framebuffer, draw the bounding cube with
GL_FRONT culling) and then the second pass (bind the default framebuffer,
bind the first pass framebuffer texture as exitPositions, set the sampling
uniforms, draw the cube with GL_BACK culling). -/
def paintGL (s : GLState) : Frame :=
  { clearColor := paintClearColor s.backgroundColor
  , passes :=
      match s.volume with
      | none => []
      | some _ =>
        [ { target := Target.offscreen s.rayVolumeExitPosMapFramebuffer.gen
          , cullMode := CullMode.front
          , readsExitTexOf := none
          , numSamplesU := none
          , sampleRangeStartU := none
          , sampleRangeEndU := none }
        , { target := Target.default
          , cullMode := CullMode.back
          , readsExitTexOf := some s.rayVolumeExitPosMapFramebuffer.gen
          , numSamplesU := some s.numSamples
          , sampleRangeStartU := some s.sampleRangeStart
          , sampleRangeEndU := some s.sampleRangeEnd } ] }

/-- loadVolume3DTex (lines 115-134): return unchanged when the volume
pointer is null, otherwise create a fresh 3D texture and upload the voxel
grid with the volume dimensions. -/
def loadVolume3DTex (s : GLState) : GLState :=
  match s.volume with
  | none => s
  | some vol =>
    { s with
      volume3DTex := some
        { gen := s.allocCounter
        , width := vol.width
        , height := vol.height
        , depth := vol.depth
        , data := vol.voxels }
    , allocCounter := s.allocCounter + 1 }

/-- dataLoaded (lines 136-142): store the given volume pointer
unconditionally, then call loadVolume3DTex. -/
def dataLoaded (s : GLState) (volumeData : Option Volume) : GLState :=
  loadVolume3DTex { s with volume := volumeData }

/-- resizeGL (lines 245-251): replace the exit position framebuffer with a
freshly constructed one of the given width and height. -/
def resizeGL (s : GLState) (w h : Int) : GLState :=
  { s with
    rayVolumeExitPosMapFramebuffer := { gen := s.allocCounter, width := w, height := h }
  , allocCounter := s.allocCounter + 1 }

/-- setNumSamples (lines 253-257): store the given value and repaint. -/
def setNumSamples (s : GLState) (n : Int) : GLState :=
  { s with numSamples := n }

/-- setSampleRangeStart (lines 259-263): store the given value and repaint. -/
def setSampleRangeStart (s : GLState) (v : ℚ) : GLState :=
  { s with sampleRangeStart := v }

/-- setSampleRangeEnd (lines 265-269): store the given value and repaint. -/
def setSampleRangeEnd (s : GLState) (v : ℚ) : GLState :=
  { s with sampleRangeEnd := v }

/-- setTechnique (lines 271-275): store the given technique and repaint. -/
def setTechnique (s : GLState) (t : Techniques) : GLState :=
  { s with technique := t }

/-- loadTransferFunction1DTex (lines 89-99): unconditionally create a fresh
1D texture from the given image (null or not) and store it as the current
transfer function texture. -/
def loadTransferFunction1DTex (s : GLState) (image : Option TFImage) : GLState :=
  { s with
    transferFunction1DTex := { gen := s.allocCounter, src := image }
  , allocCounter := s.allocCounter + 1 }

/-- loadTransferFunctionImage (lines 277-283): obtain a file name from the
file dialog (the argument is the image decoded from it, none when the
dialog was cancelled or the file unreadable) and call
loadTransferFunction1DTex on it, then repaint. -/
def loadTransferFunctionImage (s : GLState) (image : Option TFImage) : GLState :=
  loadTransferFunction1DTex s image

/-- mousePressEvent (lines 285-289): remember the current sample count in
tmpNumSamples only when it exceeds 5, and record the anchor position. -/
def mousePressEvent (s : GLState) (pos : Int × Int) : GLState :=
  { s with
    tmpNumSamples := if 5 < s.numSamples then s.numSamples else s.tmpNumSamples
  , lastMousePos := pos }

/-- mouseMoveEvent (lines 291-320): force the sample count to 5, compute
the pointer delta from the anchor, and when the left button is held apply
the zoom (Alt), pan (Ctrl) or rotate branch with its sequential clamps;
finally update the anchor position. -/
def mouseMoveEvent (s : GLState) (pos : Int × Int)
    (leftButton altMod ctrlMod : Bool) : GLState :=
  let s1 : GLState := { s with numSamples := 5 }
  let dx : Int := pos.1 - s1.lastMousePos.1
  let dy : Int := pos.2 - s1.lastMousePos.2
  let s2 : GLState :=
    if leftButton then
      if altMod then
        let z0 : ℚ := s1.viewOffset.z + (-(dy : ℚ) / 40)
        let z1 : ℚ := if 3 < z0 then 3 else z0
        let z2 : ℚ := if z1 < 4/5 then 4/5 else z1
        { s1 with viewOffset := { s1.viewOffset with z := z2 } }
      else if ctrlMod then
        let x0 : ℚ := s1.viewOffset.x + (dx : ℚ) / 60
        let y0 : ℚ := s1.viewOffset.y + (-(dy : ℚ)) / 60
        let x1 : ℚ := if 1 < x0 then 1 else x0
        let x2 : ℚ := if x1 < -1 then -1 else x1
        let y1 : ℚ := if 1 < y0 then 1 else y0
        let y2 : ℚ := if y1 < -1 then -1 else y1
        { s1 with viewOffset := { s1.viewOffset with x := x2, y := y2 } }
      else
        let rx0 : ℚ :=
          if (0 < dy ∧ s1.volumeRotAngleX < 90) ∨ (dy < 0 ∧ -90 < s1.volumeRotAngleX)
          then s1.volumeRotAngleX + (dy : ℚ)
          else s1.volumeRotAngleX
        let ry : ℚ := s1.volumeRotAngleY + (dx : ℚ)
        let rx1 : ℚ := if rx0 < -90 then -90 else rx0
        let rx2 : ℚ := if 90 < rx1 then 90 else rx1
        { s1 with volumeRotAngleX := rx2, volumeRotAngleY := ry }
    else s1
  { s2 with lastMousePos := pos }

/-- mouseReleaseEvent (lines 322-326): restore the remembered sample count. -/
def mouseReleaseEvent (s : GLState) : GLState :=
  { s with numSamples := s.tmpNumSamples }

/-- A pointer event as delivered to the widget: press carries the position,
move carries the position plus the left-button and modifier flags. -/
inductive PEvent where
  | press (pos : Int × Int)
  | move (pos : Int × Int) (leftButton altMod ctrlMod : Bool)
  | release
deriving DecidableEq, Repr

/-- Dispatch one pointer event to the corresponding handler. -/
def applyPointerEvent (s : GLState) : PEvent → GLState
  | PEvent.press p => mousePressEvent s p
  | PEvent.move p l a c => mouseMoveEvent s p l a c
  | PEvent.release => mouseReleaseEvent s

/-- Apply a sequence of pointer events in order. -/
def applyPointerEvents (s : GLState) (es : List PEvent) : GLState :=
  es.foldl applyPointerEvent s

/-- A drag interaction: the list of move events between press and release,
each given by its position and button/modifier flags. -/
def applyMoves (s : GLState) (ms : List ((Int × Int) × Bool × Bool × Bool)) : GLState :=
  ms.foldl (fun t m => mouseMoveEvent t m.1 m.2.1 m.2.2.1 m.2.2.2) s

/-- Widget state right after initializeGL.  The view offset (0, 0, 1.8) is
set at GLWidget.cpp line 35; the framebuffer is created with the widget
dimensions.  Modelled from the spec: the remaining field initializers live
in GLWidget.h, which is not part of the sources; the rotation angles start
at 0 and the render parameters at their UI defaults per the spec view
state description. -/
def initState : GLState :=
  { volume := none
  , volume3DTex := none
  , transferFunction1DTex := { gen := 0, src := none }
  , rayVolumeExitPosMapFramebuffer := { gen := 1, width := 640, height := 480 }
  , backgroundColor := { red := 0, green := 0, blue := 0 }
  , numSamples := 100
  , tmpNumSamples := 100
  , sampleRangeStart := 0
  , sampleRangeEnd := 1
  , technique := Techniques.MIP
  , viewOffset := { x := 0, y := 0, z := 9/5 }
  , volumeRotAngleX := 0
  , volumeRotAngleY := 0
  , lastMousePos := (0, 0)
  , widgetWidth := 640
  , widgetHeight := 480
  , allocCounter := 2 }

/-- The view state bounds the spec states as invariant: horizontal rotation
angle in [-90, 90], pan offsets in [-1, 1], zoom distance in [0.8, 3]. -/
def ViewInvariant (s : GLState) : Prop :=
  -90 ≤ s.volumeRotAngleX ∧ s.volumeRotAngleX ≤ 90 ∧
  -1 ≤ s.viewOffset.x ∧ s.viewOffset.x ≤ 1 ∧
  -1 ≤ s.viewOffset.y ∧ s.viewOffset.y ≤ 1 ∧
  4/5 ≤ s.viewOffset.z ∧ s.viewOffset.z ≤ 3

instance (s : GLState) : Decidable (ViewInvariant s) := by
  unfold ViewInvariant
  infer_instance

/-- A concrete 2x2x2 volume of uniform intensity used as sample input. -/
def exVolume : Volume :=
  { width := 2, height := 2, depth := 2, voxels := List.replicate 8 (1/2) }

/-- A concrete state with a loaded volume and uploaded 3D texture. -/
def exLoadedState : GLState :=
  dataLoaded initState (some exVolume)

/-- Sequential upper clamp as written in the source: if b < v then b else v. -/
def clampHigh (b v : ℚ) : ℚ :=
  if b < v then b else v

/-- Sequential lower clamp as written in the source: if v < b then b else v. -/
def clampLow (b v : ℚ) : ℚ :=
  if v < b then b else v

lemma clampLow_clampHigh_mem (lo hi v : ℚ) (h : lo ≤ hi) :
    lo ≤ clampLow lo (clampHigh hi v) ∧ clampLow lo (clampHigh hi v) ≤ hi := by
  unfold clampLow clampHigh
  split_ifs <;> constructor <;> linarith

lemma clampHigh_clampLow_mem (lo hi v : ℚ) (h : lo ≤ hi) :
    lo ≤ clampHigh hi (clampLow lo v) ∧ clampHigh hi (clampLow lo v) ≤ hi := by
  unfold clampLow clampHigh
  split_ifs <;> constructor <;> linarith

lemma mouseMoveEvent_eq_noButton (s : GLState) (p : Int × Int) (a c : Bool) :
    mouseMoveEvent s p false a c = { s with numSamples := 5, lastMousePos := p } := rfl

lemma mouseMoveEvent_eq_zoom (s : GLState) (p : Int × Int) (c : Bool) :
    mouseMoveEvent s p true true c =
      { s with numSamples := 5, lastMousePos := p
             , viewOffset :=
                 { s.viewOffset with z :=
                     (clampLow (4/5) (clampHigh 3
                       (s.viewOffset.z + (-(((p.2 - s.lastMousePos.2 : Int)) : ℚ) / 40)))) } } := rfl

lemma mouseMoveEvent_eq_pan (s : GLState) (p : Int × Int) :
    mouseMoveEvent s p true false true =
      { s with numSamples := 5, lastMousePos := p
             , viewOffset :=
                 { s.viewOffset with
                   x := (clampLow (-1) (clampHigh 1
                          (s.viewOffset.x + (((p.1 - s.lastMousePos.1 : Int)) : ℚ) / 60)))
                 , y := (clampLow (-1) (clampHigh 1
                          (s.viewOffset.y + (-(((p.2 - s.lastMousePos.2 : Int)) : ℚ)) / 60))) } } := rfl

lemma mouseMoveEvent_eq_rotate (s : GLState) (p : Int × Int) :
    mouseMoveEvent s p true false false =
      { s with numSamples := 5, lastMousePos := p
             , volumeRotAngleX :=
                 (clampHigh 90 (clampLow (-90)
                   (if (0 < p.2 - s.lastMousePos.2 ∧ s.volumeRotAngleX < 90) ∨
                       (p.2 - s.lastMousePos.2 < 0 ∧ -90 < s.volumeRotAngleX)
                    then s.volumeRotAngleX + (((p.2 - s.lastMousePos.2 : Int)) : ℚ)
                    else s.volumeRotAngleX)))
             , volumeRotAngleY :=
                 (s.volumeRotAngleY + (((p.1 - s.lastMousePos.1 : Int)) : ℚ)) } := rfl

lemma mouseMoveEvent_numSamples (s : GLState) (p : Int × Int) (l a c : Bool) :
    (mouseMoveEvent s p l a c).numSamples = 5 := by
  cases l with
  | false => rw [mouseMoveEvent_eq_noButton]
  | true =>
    cases a with
    | true => rw [mouseMoveEvent_eq_zoom]
    | false =>
      cases c with
      | true => rw [mouseMoveEvent_eq_pan]
      | false => rw [mouseMoveEvent_eq_rotate]

lemma mouseMoveEvent_tmpNumSamples (s : GLState) (p : Int × Int) (l a c : Bool) :
    (mouseMoveEvent s p l a c).tmpNumSamples = s.tmpNumSamples := by
  cases l with
  | false => rw [mouseMoveEvent_eq_noButton]
  | true =>
    cases a with
    | true => rw [mouseMoveEvent_eq_zoom]
    | false =>
      cases c with
      | true => rw [mouseMoveEvent_eq_pan]
      | false => rw [mouseMoveEvent_eq_rotate]

lemma applyMoves_cons (s : GLState) (m : (Int × Int) × Bool × Bool × Bool)
    (ms : List ((Int × Int) × Bool × Bool × Bool)) :
    applyMoves s (m :: ms) = applyMoves (mouseMoveEvent s m.1 m.2.1 m.2.2.1 m.2.2.2) ms := rfl

lemma applyMoves_tmpNumSamples (ms : List ((Int × Int) × Bool × Bool × Bool)) :
    ∀ s : GLState, (applyMoves s ms).tmpNumSamples = s.tmpNumSamples := by
  induction ms with
  | nil => intro s; rfl
  | cons m tail ih =>
    intro s
    rw [applyMoves_cons, ih, mouseMoveEvent_tmpNumSamples]

lemma applyMoves_numSamples (ms : List ((Int × Int) × Bool × Bool × Bool)) :
    ∀ s : GLState, ms ≠ [] → (applyMoves s ms).numSamples = 5 := by
  induction ms with
  | nil => intro s h; exact absurd rfl h
  | cons m tail ih =>
    intro s _
    cases tail with
    | nil => exact mouseMoveEvent_numSamples s m.1 m.2.1 m.2.2.1 m.2.2.2
    | cons m2 t2 =>
      rw [applyMoves_cons]
      exact ih _ (List.cons_ne_nil m2 t2)

lemma viewInvariant_mouseMoveEvent (s : GLState) (p : Int × Int) (l a c : Bool)
    (h : ViewInvariant s) : ViewInvariant (mouseMoveEvent s p l a c) := by
  obtain ⟨h1, h2, h3, h4, h5, h6, h7, h8⟩ := h
  cases l with
  | false =>
    rw [mouseMoveEvent_eq_noButton]
    exact ⟨h1, h2, h3, h4, h5, h6, h7, h8⟩
  | true =>
    cases a with
    | true =>
      rw [mouseMoveEvent_eq_zoom]
      refine ⟨h1, h2, h3, h4, h5, h6, ?_, ?_⟩
      · exact (clampLow_clampHigh_mem (4/5) 3 _ (by norm_num)).1
      · exact (clampLow_clampHigh_mem (4/5) 3 _ (by norm_num)).2
    | false =>
      cases c with
      | true =>
        rw [mouseMoveEvent_eq_pan]
        refine ⟨h1, h2, ?_, ?_, ?_, ?_, h7, h8⟩
        · exact (clampLow_clampHigh_mem (-1) 1 _ (by norm_num)).1
        · exact (clampLow_clampHigh_mem (-1) 1 _ (by norm_num)).2
        · exact (clampLow_clampHigh_mem (-1) 1 _ (by norm_num)).1
        · exact (clampLow_clampHigh_mem (-1) 1 _ (by norm_num)).2
      | false =>
        rw [mouseMoveEvent_eq_rotate]
        refine ⟨?_, ?_, h3, h4, h5, h6, h7, h8⟩
        · exact (clampHigh_clampLow_mem (-90) 90 _ (by norm_num)).1
        · exact (clampHigh_clampLow_mem (-90) 90 _ (by norm_num)).2

lemma viewInvariant_applyPointerEvent (s : GLState) (e : PEvent)
    (h : ViewInvariant s) : ViewInvariant (applyPointerEvent s e) := by
  cases e with
  | press p => exact h
  | release => exact h
  | move p l a c => exact viewInvariant_mouseMoveEvent s p l a c h

lemma viewInvariant_applyPointerEvents (es : List PEvent) :
    ∀ s : GLState, ViewInvariant s → ViewInvariant (applyPointerEvents s es) := by
  induction es with
  | nil => intro s h; exact h
  | cons e tail ih =>
    intro s h
    exact ih _ (viewInvariant_applyPointerEvent s e h)

/-- C1: in every paint with a loaded volume, the trace contains the
exit-position pass (offscreen target, front-face culling) at an earlier
index than the raycasting pass (default target, back-face culling), and
the raycasting pass reads the exit-position texture of exactly the
framebuffer the first pass rendered into. -/
theorem exit_pass_precedes_raycast (s : GLState) (v : Volume)
    (h : s.volume = some v) :
    ∃ i j : Nat, i < j ∧
      (∃ p1, (paintGL s).passes[i]? = some p1 ∧
        p1.target = Target.offscreen s.rayVolumeExitPosMapFramebuffer.gen ∧
        p1.cullMode = CullMode.front) ∧
      (∃ p2, (paintGL s).passes[j]? = some p2 ∧
        p2.target = Target.default ∧
        p2.cullMode = CullMode.back ∧
        p2.readsExitTexOf = some s.rayVolumeExitPosMapFramebuffer.gen) := by
  unfold paintGL
  rw [h]
  exact ⟨0, 1, Nat.zero_lt_one, ⟨_, rfl, rfl, rfl⟩, ⟨_, rfl, rfl, rfl, rfl⟩⟩

/-- Witness for C1 at a concrete loaded state. -/
theorem exit_pass_precedes_raycast_witness :
    ∃ i j : Nat, i < j ∧
      (∃ p1, (paintGL exLoadedState).passes[i]? = some p1 ∧
        p1.target = Target.offscreen exLoadedState.rayVolumeExitPosMapFramebuffer.gen ∧
        p1.cullMode = CullMode.front) ∧
      (∃ p2, (paintGL exLoadedState).passes[j]? = some p2 ∧
        p2.target = Target.default ∧
        p2.cullMode = CullMode.back ∧
        p2.readsExitTexOf = some exLoadedState.rayVolumeExitPosMapFramebuffer.gen) :=
  exit_pass_precedes_raycast exLoadedState exVolume rfl

/-- C2 counterexample: with background color (255, 255, 255) the clear
color issued by paintGL is 255/256 per channel, which is not the exact
background color 255/255 = 1, so the frame is not cleared to exactly the
configured background color. -/
theorem clear_color_differs_from_background :
    (paintGL { initState with
        backgroundColor := { red := 255, green := 255, blue := 255 } }).clearColor ≠
      specBackgroundClear { red := 255, green := 255, blue := 255 } := by
  intro hEq
  have h1 : ((255 : ℚ) / 256) = 255 / 255 :=
    congrArg (fun q : ℚ × ℚ × ℚ × ℚ => q.1) hEq
  norm_num at h1

/-- C2 amended: for every paint while no volume is loaded, the paint
routine executes no pass (hence samples no volume) and clears the frame to
each background byte channel divided by 256 — an approximation of the
background color that differs from exact channel equality, for instance at
channel value 255. -/
theorem paint_without_volume_clears_only (s : GLState) (h : s.volume = none) :
    (paintGL s).passes = [] ∧
    (paintGL s).clearColor =
      ((s.backgroundColor.red : ℚ) / 256, (s.backgroundColor.green : ℚ) / 256,
        (s.backgroundColor.blue : ℚ) / 256, 1) := by
  constructor
  · unfold paintGL
    rw [h]
  · rfl

/-- Witness for C2 amended at the initial (volume-free) state. -/
theorem paint_without_volume_clears_only_witness :
    (paintGL initState).passes = [] ∧
    (paintGL initState).clearColor =
      ((initState.backgroundColor.red : ℚ) / 256,
        (initState.backgroundColor.green : ℚ) / 256,
        (initState.backgroundColor.blue : ℚ) / 256, 1) :=
  paint_without_volume_clears_only initState rfl

/-- C3: after resizeGL with positive width and height, the exit-position
framebuffer has exactly those dimensions, and every pass of the next paint
that reads an exit-position texture reads the newly created framebuffer. -/
theorem resize_sets_exit_map_dimensions (s : GLState) (w h : Int)
    (_hw : 0 < w) (_hh : 0 < h) :
    (resizeGL s w h).rayVolumeExitPosMapFramebuffer.width = w ∧
    (resizeGL s w h).rayVolumeExitPosMapFramebuffer.height = h ∧
    ∀ p ∈ (paintGL (resizeGL s w h)).passes,
      p.readsExitTexOf = none ∨
      p.readsExitTexOf = some (resizeGL s w h).rayVolumeExitPosMapFramebuffer.gen := by
  refine ⟨rfl, rfl, ?_⟩
  intro p hp
  rcases hs : s.volume with _ | v
  · simp [paintGL, resizeGL, hs] at hp
  · simp [paintGL, resizeGL, hs] at hp
    rcases hp with rfl | rfl
    · exact Or.inl rfl
    · exact Or.inr rfl

/-- Witness for C3 at a concrete resize to 7 by 9. -/
theorem resize_sets_exit_map_dimensions_witness :
    (resizeGL initState 7 9).rayVolumeExitPosMapFramebuffer.width = 7 ∧
    (resizeGL initState 7 9).rayVolumeExitPosMapFramebuffer.height = 9 ∧
    ∀ p ∈ (paintGL (resizeGL initState 7 9)).passes,
      p.readsExitTexOf = none ∨
      p.readsExitTexOf = some (resizeGL initState 7 9).rayVolumeExitPosMapFramebuffer.gen :=
  resize_sets_exit_map_dimensions initState 7 9 (by decide) (by decide)

/-- C4 counterexample: from a state holding a loaded volume, invoking
dataLoaded with a null grid replaces the stored volume reference, so the
prior state is not left untouched. -/
theorem null_load_replaces_volume :
    exLoadedState.volume = some exVolume ∧
    (dataLoaded exLoadedState none).volume ≠ exLoadedState.volume := by
  refine ⟨rfl, fun h => ?_⟩
  exact Option.noConfusion h

/-- C4 amended: dataLoaded stores the given grid pointer unconditionally;
with a null grid the stored volume reference becomes null — subsequent
paints then execute no pass and render background only — while the 3D
texture upload is skipped, leaving the prior GPU texture in place. -/
theorem dataLoaded_stores_argument (s : GLState) :
    (∀ g : Option Volume, (dataLoaded s g).volume = g) ∧
    (dataLoaded s none).volume3DTex = s.volume3DTex ∧
    (paintGL (dataLoaded s none)).passes = [] := by
  refine ⟨?_, rfl, rfl⟩
  intro g
  cases g with
  | none => rfl
  | some v => rfl

/-- Witness for C4 amended at the concrete loaded state. -/
theorem dataLoaded_stores_argument_witness :
    (∀ g : Option Volume, (dataLoaded exLoadedState g).volume = g) ∧
    (dataLoaded exLoadedState none).volume3DTex = exLoadedState.volume3DTex ∧
    (paintGL (dataLoaded exLoadedState none)).passes = [] :=
  dataLoaded_stores_argument exLoadedState

/-- C5 counterexample: setNumSamples stores 0 verbatim instead of clamping
or rejecting it, the resulting paint differs from the paint after setting
sample count 1 (the numSamples uniform differs), and the range setters
store an inverted pair with start greater than end. -/
theorem setters_accept_out_of_range :
    (setNumSamples exLoadedState 0).numSamples = 0 ∧
    paintGL (setNumSamples exLoadedState 0) ≠ paintGL (setNumSamples exLoadedState 1) ∧
    (setSampleRangeEnd (setSampleRangeStart exLoadedState (9/10)) (1/10)).sampleRangeEnd <
      (setSampleRangeEnd (setSampleRangeStart exLoadedState (9/10)) (1/10)).sampleRangeStart := by
  refine ⟨rfl, fun h => ?_, ?_⟩
  · have h2 := congrArg (fun f : Frame => (f.passes[1]?).map Pass.numSamplesU) h
    exact absurd h2 (by decide)
  · show (1 : ℚ) / 10 < 9 / 10
    norm_num

/-- C5 amended: the setters store the given values verbatim — no clamping
or rejection happens at the interface boundary — and the stored sample
count is handed unchanged to the raycasting pass as its uniform. -/
theorem setters_store_values_verbatim (s : GLState) (n : Int) (a b : ℚ) :
    (setNumSamples s n).numSamples = n ∧
    (setSampleRangeStart s a).sampleRangeStart = a ∧
    (setSampleRangeEnd s b).sampleRangeEnd = b ∧
    ∀ p ∈ (paintGL (setNumSamples s n)).passes,
      p.numSamplesU = none ∨ p.numSamplesU = some n := by
  refine ⟨rfl, rfl, rfl, ?_⟩
  intro p hp
  rcases hs : s.volume with _ | v
  · simp [paintGL, setNumSamples, hs] at hp
  · simp [paintGL, setNumSamples, hs] at hp
    rcases hp with rfl | rfl
    · exact Or.inl rfl
    · exact Or.inr rfl

/-- Witness for C5 amended at concrete out-of-range inputs. -/
theorem setters_store_values_verbatim_witness :
    (setNumSamples exLoadedState 0).numSamples = 0 ∧
    (setSampleRangeStart exLoadedState (9/10)).sampleRangeStart = 9/10 ∧
    (setSampleRangeEnd exLoadedState (1/10)).sampleRangeEnd = 1/10 ∧
    ∀ p ∈ (paintGL (setNumSamples exLoadedState 0)).passes,
      p.numSamplesU = none ∨ p.numSamplesU = some 0 :=
  setters_store_values_verbatim exLoadedState 0 (9/10) (1/10)

/-- C6: at press the prior sample count is remembered exactly when it
exceeds the floor 5 (otherwise the old remembered value is kept), every
move during the interaction forces the sample count to 5, and when the
drag began with sample count above 5 the release restores that count. -/
theorem press_drag_release_sample_count (s : GLState) (p : Int × Int)
    (ms : List ((Int × Int) × Bool × Bool × Bool)) :
    ((mousePressEvent s p).tmpNumSamples =
      if 5 < s.numSamples then s.numSamples else s.tmpNumSamples) ∧
    (ms ≠ [] → (applyMoves (mousePressEvent s p) ms).numSamples = 5) ∧
    (5 < s.numSamples →
      (mouseReleaseEvent (applyMoves (mousePressEvent s p) ms)).numSamples = s.numSamples) := by
  refine ⟨rfl, ?_, ?_⟩
  · exact fun hne => applyMoves_numSamples ms _ hne
  · intro h5
    show (applyMoves (mousePressEvent s p) ms).tmpNumSamples = s.numSamples
    rw [applyMoves_tmpNumSamples]
    show (if 5 < s.numSamples then s.numSamples else s.tmpNumSamples) = s.numSamples
    rw [if_pos h5]

/-- Witness for C6 at a concrete drag of one move event. -/
theorem press_drag_release_sample_count_witness :
    ((mousePressEvent initState (0, 0)).tmpNumSamples =
      if 5 < initState.numSamples then initState.numSamples else initState.tmpNumSamples) ∧
    (([((1, 2), true, false, false)] : List ((Int × Int) × Bool × Bool × Bool)) ≠ [] →
      (applyMoves (mousePressEvent initState (0, 0))
        [((1, 2), true, false, false)]).numSamples = 5) ∧
    (5 < initState.numSamples →
      (mouseReleaseEvent (applyMoves (mousePressEvent initState (0, 0))
        [((1, 2), true, false, false)])).numSamples = initState.numSamples) :=
  press_drag_release_sample_count initState (0, 0) [((1, 2), true, false, false)]

/-- C7: starting from the initial view state (offset (0, 0, 1.8), rotation
angles 0), every sequence of pointer events keeps the horizontal rotation
angle in [-90, 90], the pan offsets in [-1, 1] and the zoom distance in
[0.8, 3]. -/
theorem view_state_bounds_invariant (s : GLState)
    (hoff : s.viewOffset = { x := 0, y := 0, z := 9/5 })
    (hrx : s.volumeRotAngleX = 0)
    (es : List PEvent) :
    ViewInvariant (applyPointerEvents s es) := by
  have h0 : ViewInvariant s := by
    unfold ViewInvariant
    rw [hoff, hrx]
    norm_num
  exact viewInvariant_applyPointerEvents es s h0

/-- Witness for C7 at the initial state and a concrete event sequence. -/
theorem view_state_bounds_invariant_witness :
    ViewInvariant (applyPointerEvents initState
      [PEvent.press (0, 0), PEvent.move (500, -700) true false false,
        PEvent.move (3, 4) true true false, PEvent.release]) :=
  view_state_bounds_invariant initState rfl rfl
    [PEvent.press (0, 0), PEvent.move (500, -700) true false false,
      PEvent.move (3, 4) true true false, PEvent.release]

/-- C8: a left drag with the zoom modifier and vertical delta +80 moves the
z offset down by 80/40 = 2, sequentially clamped into [0.8, 3]; in
particular from the initial z = 1.8 the post-event z is 0.8. -/
theorem zoom_drag_deltaY_eighty (s : GLState) (px py : Int)
    (hdy : py - s.lastMousePos.2 = 80) :
    (mouseMoveEvent s (px, py) true true false).viewOffset.z =
      max (4/5) (min 3 (s.viewOffset.z - 2)) ∧
    (mouseMoveEvent initState (0, 80) true true false).viewOffset.z = 4/5 := by
  constructor
  · rw [mouseMoveEvent_eq_zoom]
    show clampLow (4/5) (clampHigh 3
        (s.viewOffset.z + (-(((py - s.lastMousePos.2 : Int)) : ℚ) / 40))) =
      max (4/5) (min 3 (s.viewOffset.z - 2))
    rw [hdy]
    unfold clampLow clampHigh
    rw [max_def, min_def]
    push_cast
    split_ifs <;> linarith
  · rw [mouseMoveEvent_eq_zoom]
    norm_num [clampLow, clampHigh, initState]

/-- Witness for C8 at the initial state with pointer delta (0, 80). -/
theorem zoom_drag_deltaY_eighty_witness :
    (mouseMoveEvent initState (0, 80) true true false).viewOffset.z =
      max (4/5) (min 3 (initState.viewOffset.z - 2)) ∧
    (mouseMoveEvent initState (0, 80) true true false).viewOffset.z = 4/5 :=
  zoom_drag_deltaY_eighty initState 0 80 (by decide)

/-- C9: a move event with no button held still forces the sample count to
the low value 5 and updates the anchor position, while the rotation angles
and all three view offset components are unchanged. -/
theorem hover_move_resets_samples_only (s : GLState) (p : Int × Int) (a c : Bool) :
    (mouseMoveEvent s p false a c).numSamples = 5 ∧
    (mouseMoveEvent s p false a c).lastMousePos = p ∧
    (mouseMoveEvent s p false a c).volumeRotAngleX = s.volumeRotAngleX ∧
    (mouseMoveEvent s p false a c).volumeRotAngleY = s.volumeRotAngleY ∧
    (mouseMoveEvent s p false a c).viewOffset = s.viewOffset := by
  rw [mouseMoveEvent_eq_noButton]
  exact ⟨rfl, rfl, rfl, rfl, rfl⟩

/-- Witness for C9 at a concrete hover move. -/
theorem hover_move_resets_samples_only_witness :
    (mouseMoveEvent initState (3, 4) false false false).numSamples = 5 ∧
    (mouseMoveEvent initState (3, 4) false false false).lastMousePos = (3, 4) ∧
    (mouseMoveEvent initState (3, 4) false false false).volumeRotAngleX =
      initState.volumeRotAngleX ∧
    (mouseMoveEvent initState (3, 4) false false false).volumeRotAngleY =
      initState.volumeRotAngleY ∧
    (mouseMoveEvent initState (3, 4) false false false).viewOffset =
      initState.viewOffset :=
  hover_move_resets_samples_only initState (3, 4) false false

/-- C10: every transfer-function load request, including one whose image is
null (empty or unreadable path), unconditionally replaces the current ramp
texture by a freshly created texture built from the given image; the prior
ramp is never retained.  The hypothesis is the allocation invariant that
the current texture was created before the present allocation counter. -/
theorem transfer_function_always_replaced (s : GLState) (image : Option TFImage)
    (hfresh : s.transferFunction1DTex.gen < s.allocCounter) :
    (loadTransferFunctionImage s image).transferFunction1DTex ≠ s.transferFunction1DTex ∧
    (loadTransferFunctionImage s image).transferFunction1DTex.src = image ∧
    (loadTransferFunctionImage s image).transferFunction1DTex.gen = s.allocCounter := by
  refine ⟨?_, rfl, rfl⟩
  intro heq
  have hgen : s.allocCounter = s.transferFunction1DTex.gen :=
    congrArg Texture1D.gen heq
  omega

/-- Witness for C10 at the initial state with a null image. -/
theorem transfer_function_always_replaced_witness :
    (loadTransferFunctionImage initState none).transferFunction1DTex ≠
      initState.transferFunction1DTex ∧
    (loadTransferFunctionImage initState none).transferFunction1DTex.src = none ∧
    (loadTransferFunctionImage initState none).transferFunction1DTex.gen =
      initState.allocCounter :=
  transfer_function_always_replaced initState none (by decide)

end VolumeRaycasting
